import Mathlib

/-!
# Verification of the workflow-launcher core (`group_tool/main.py`)

Shallow embedding of the application registry and process-launcher core of
`src/group_tool/main.py`.  Python dictionaries are modelled as association
lists with unique keys, JSON scalar values as `PyVal`, the persisted
configuration file as a `FileState` (absent, unparseable, or a parsed
document — the byte-level serialization performed by `json.dump`/`json.load`
is the external collaborator and is modelled as fidelity-preserving),
GUI dialogs and process creation as an `Env` of externally supplied results,
and the observable actions of each operation as a list of `Effect`s.
Qt signal deliveries to the connected slots are modelled as traces of
`QtEvent`s processed by the translated handler functions.
-/

namespace GroupTool

/-- A scalar Python value as stored in one field of the JSON config file. -/
inductive PyVal where
  | null
  | bool (b : Bool)
  | str (s : String)
  | num (n : Int)
deriving Repr, DecidableEq

/-- One `app_info` dictionary: string keys to scalar values (keys unique,
as in a Python dict). -/
abbrev AppInfo := List (String × PyVal)

/-- The `self.config` dictionary: app name to its `app_info` dict. -/
abbrev Config := List (String × AppInfo)

/-- The persisted configuration file.  `absent`: no file on disk;
`corrupt`: a file whose text `json.load` cannot parse; `stored doc`: a file
holding the JSON document `doc` (text encoding is the collaborator). -/
inductive FileState where
  | absent
  | corrupt
  | stored (doc : Config)
deriving Repr, DecidableEq

/-- Python exceptions that the modelled code can raise. -/
inductive PyErr where
  | jsonDecodeError
  | attributeError
  | typeError
deriving Repr, DecidableEq

/-- Observable actions performed by an operation, in order. -/
inductive Effect where
  | infoBox (title text : String)
  | warnBox (title text : String)
  | criticalBox (title text : String)
  | questionBox (title text : String)
  | openExecDialog (title : String)
  | openFileArgDialog (title : String)
  | fileWrite (doc : Config)
  | processStarted (path : String) (args : List String)
deriving Repr, DecidableEq

/-- The mutable state of the `WorkflowLauncher` window: the in-memory
config, the on-disk file, the lines appended to the output area, and the
current `self.process` handle (path and args of the created `QProcess`). -/
structure AppState where
  config : Config
  file : FileState
  outputLines : List String
  process : Option (String × List String)
deriving Repr, DecidableEq

/-- Externally supplied inputs: which filesystem paths exist
(`os.path.exists`), which paths the OS can actually start a process from,
the string returned by each file dialog (empty string = cancelled, as in
Qt), and the answer to the removal confirmation box. -/
structure Env where
  fsPaths : List String
  startable : List String
  execPick : String
  filePick : String
  confirmRemove : Bool
deriving Repr, DecidableEq

/-- Python truthiness of a `dict.get` result: a missing key gives `None`
which is falsy; `False`, empty string and `0` are falsy. -/
def pyTruthy : Option PyVal → Bool
  | Option.none => false
  | some PyVal.null => false
  | some (PyVal.bool b) => b
  | some (PyVal.str s) => s != ""
  | some (PyVal.num n) => n != 0

/-- `os.path.exists(path)` for a `dict.get("path")` result.  Only string
paths are checked against the filesystem; the bool/int file-descriptor
semantics of `os.path.exists` is outside the model and mapped to `false`
(no theorem below engages a non-string truthy path at this call). -/
def pathExistsVal (env : Env) (v : Option PyVal) : Bool :=
  match v with
  | some (PyVal.str s) => decide (s ∈ env.fsPaths)
  | _ => false

/-- Python dict update `d[k] = v`: replaces in place if the key is present,
appends otherwise (keys are unique, as in a Python dict). -/
def dictSet (d : List (String × α)) (k : String) (v : α) : List (String × α) :=
  match d with
  | [] => [(k, v)]
  | p :: rest => if p.1 = k then (k, v) :: rest else p :: dictSet rest k v

/-- Python `del d[k]` (the code only calls it after a `k in d` guard). -/
def dictDel (d : List (String × α)) (k : String) : List (String × α) :=
  d.filter (fun p => p.1 ≠ k)

/-- `self.config.get(key, {})`. -/
def entryOf (st : AppState) (key : String) : AppInfo :=
  (st.config.lookup key).getD []

/-- `load_config`: returns the parsed file if it exists, `{}` otherwise;
an unparseable file raises `json.JSONDecodeError` out of `json.load`. -/
def load_config : FileState → Except PyErr Config
  | FileState.absent => Except.ok []
  | FileState.corrupt => Except.error PyErr.jsonDecodeError
  | FileState.stored doc => Except.ok doc

/-- `save_config`: overwrites the file with the full current config
(the GUI list refresh it also performs has no modelled state). -/
def save_config (st : AppState) : AppState × List Effect :=
  ({ st with file := FileState.stored st.config }, [Effect.fileWrite st.config])

/-- `WorkflowLauncher.__init__` up to the point the config is loaded: the
exception from a corrupt file propagates out of the constructor, so
application startup fails. -/
def appInit (fs : FileState) : Except PyErr AppState := do
  let cfg ← load_config fs
  Except.ok { config := cfg, file := fs, outputLines := [], process := Option.none }

/-- `get_app_info`: fetches the entry; if its path is missing or does not
exist, prompts for an executable; a non-empty pick is written into the
entry and the config is saved; a cancelled pick leaves everything as it
was.  Returns the (possibly updated) `app_info`. -/
def get_app_info (env : Env) (st : AppState) (key : String) :
    AppState × List Effect × AppInfo :=
  let app_info := entryOf st key
  let path := app_info.lookup "path"
  if pyTruthy path && pathExistsVal env path then
    (st, [], app_info)
  else
    let effs := [Effect.infoBox "Select Application" ("Select executable for " ++ key),
                 Effect.openExecDialog ("Select " ++ key ++ " executable")]
    if env.execPick != "" then
      let app_info2 := dictSet app_info "path" (PyVal.str env.execPick)
      let st2 := { st with config := dictSet st.config key app_info2 }
      let saved := save_config st2
      (saved.1, effs ++ saved.2, app_info2)
    else
      (st, effs, app_info)

/-- `run_cli`: clears the output area, appends the header line, creates a
`QProcess` stored in `self.process`, connects the three handlers and calls
`start`.  `start` succeeds only for a startable path; on failure no signal
connected here is ever emitted and no error is reported (the `QProcess`
error signal is not connected).  A non-string path raises `TypeError`
inside `QProcess.start`. -/
def run_cli (env : Env) (st : AppState) (pv : PyVal) (args : List String) :
    Except PyErr (AppState × List Effect) :=
  match pv with
  | PyVal.str p =>
    let header := "Running " ++ p ++ " " ++ String.intercalate " " args ++ "\n"
    let st2 := { st with outputLines := [header], process := some (p, args) }
    Except.ok (st2, if p ∈ env.startable then [Effect.processStarted p args] else [])
  | _ => Except.error PyErr.typeError

/-- The tail of `run_app` after the argument list is settled: CLI entries
go through `run_cli`; everything else goes through `subprocess.Popen`
wrapped in `try/except`, which shows a critical box on failure. -/
def doLaunch (env : Env) (st : AppState) (effs : List Effect)
    (app_info : AppInfo) (pv : PyVal) (args : List String) :
    Except PyErr (AppState × List Effect) :=
  if pyTruthy (app_info.lookup "cli") then
    match run_cli env st pv args with
    | Except.ok r => Except.ok (r.1, effs ++ r.2)
    | Except.error e => Except.error e
  else
    match pv with
    | PyVal.str p =>
      if p ∈ env.startable then
        Except.ok (st, effs ++ [Effect.processStarted p args])
      else
        Except.ok (st, effs ++ [Effect.criticalBox "Error" ("cannot start " ++ p)])
    | _ => Except.ok (st, effs ++ [Effect.criticalBox "Error" "cannot start"])

/-- `run_app`: resolves the entry via `get_app_info`; returns if the path
is still falsy; prompts for a file argument when `file_input` is truthy,
aborting on a cancelled pick; then launches. -/
def run_app (env : Env) (st : AppState) (key : String) :
    Except PyErr (AppState × List Effect) :=
  let r := get_app_info env st key
  let st1 := r.1
  let eff1 := r.2.1
  let app_info := r.2.2
  match app_info.lookup "path" with
  | Option.none => Except.ok (st1, eff1)
  | some pv =>
    if pyTruthy (some pv) = false then Except.ok (st1, eff1)
    else
      if pyTruthy (app_info.lookup "file_input") then
        let effd := eff1 ++ [Effect.openFileArgDialog ("Select file for " ++ key)]
        if env.filePick = "" then Except.ok (st1, effd)
        else doLaunch env st1 effd app_info pv [env.filePick]
      else doLaunch env st1 eff1 app_info pv []

/-- `remove_app`: always asks for confirmation; deletes and saves only
when confirmed and the name is a key of the config. -/
def remove_app (env : Env) (st : AppState) (name : String) :
    AppState × List Effect :=
  let effQ := [Effect.questionBox "Confirm Removal"
    ("Are you sure you want to remove " ++ name ++ " from the list?")]
  if env.confirmRemove then
    if (st.config.lookup name).isSome then
      let st2 := { st with config := dictDel st.config name }
      let saved := save_config st2
      (saved.1, effQ ++ saved.2)
    else (st, effQ)
  else (st, effQ)

/-- Qt signal deliveries to the three slots connected in `run_cli`. -/
inductive QtEvent where
  | readyStdout (data : String)
  | readyStderr (data : String)
  | finished (code : Int)
deriving Repr, DecidableEq

/-- `handle_stdout`: reads `self.process` (raising `AttributeError` on
`None`) and appends the chunk to the output area. -/
def handle_stdout (st : AppState) (data : String) : Except PyErr AppState :=
  match st.process with
  | Option.none => Except.error PyErr.attributeError
  | some _ => Except.ok { st with outputLines := st.outputLines ++ [data] }

/-- `handle_stderr`: like `handle_stdout` but the chunk is displayed with
the distinguishing prefix. -/
def handle_stderr (st : AppState) (data : String) : Except PyErr AppState :=
  match st.process with
  | Option.none => Except.error PyErr.attributeError
  | some _ => Except.ok { st with outputLines := st.outputLines ++ ["[ERROR] " ++ data] }

/-- The line appended by `handle_finished`. -/
def exitMarker : String := "\n--- Process Finished ---\n"

/-- `handle_finished`: appends the finish marker and releases the process
handle, making the session terminal. -/
def handle_finished (st : AppState) : AppState :=
  { st with outputLines := st.outputLines ++ [exitMarker], process := Option.none }

/-- Dispatch of one delivered Qt signal to its connected slot. -/
def processEvent (st : AppState) : QtEvent → Except PyErr AppState
  | QtEvent.readyStdout d => handle_stdout st d
  | QtEvent.readyStderr d => handle_stderr st d
  | QtEvent.finished _ => Except.ok (handle_finished st)

/-- Processing of a whole delivered trace, in delivery order. -/
def processTrace (st : AppState) : List QtEvent → Except PyErr AppState
  | [] => Except.ok st
  | e :: rest => do processTrace (← processEvent st e) rest

/-- Whether an event is the `finished` signal. -/
def isFinishedEvent : QtEvent → Bool
  | QtEvent.finished _ => true
  | _ => false

/-- The output-area line(s) produced by one delivered event. -/
def renderEvent : QtEvent → List String
  | QtEvent.readyStdout d => [d]
  | QtEvent.readyStderr d => ["[ERROR] " ++ d]
  | QtEvent.finished _ => [exitMarker]

/-- An effect that signals an error to the user. -/
def isErrorEffect : Effect → Bool
  | Effect.criticalBox _ _ => true
  | _ => false

/-- An effect recording that an OS process actually started. -/
def isProcessStart : Effect → Bool
  | Effect.processStarted _ _ => true
  | _ => false

/-- An effect recording a write of the configuration file. -/
def isFileWriteEff : Effect → Bool
  | Effect.fileWrite _ => true
  | _ => false

/-- Whether a launch outcome signalled any error to the caller: either a
raised exception or an error dialog among its effects. -/
def signalsError : Except PyErr (AppState × List Effect) → Bool
  | Except.error _ => true
  | Except.ok r => r.2.any isErrorEffect

/-! ## Helper lemmas -/

theorem bindOk {α β : Type} {ε : Type} (a : α) (f : α → Except ε β) :
    (Except.ok a >>= f) = f a := rfl

theorem bindError {α β : Type} {ε : Type} (e : ε) (f : α → Except ε β) :
    ((Except.error e : Except ε α) >>= f) = Except.error e := rfl

theorem dictSet_lookup_ne {α : Type} (k k2 : String) (v : α) (h : k2 ≠ k)
    (d : List (String × α)) : (dictSet d k v).lookup k2 = d.lookup k2 := by
  have hb : (k2 == k) = false := beq_eq_false_iff_ne.mpr h
  induction d with
  | nil => simp [dictSet, List.lookup, hb]
  | cons p rest ih =>
    by_cases hp : p.1 = k
    · simp [dictSet, hp, List.lookup, hb]
    · simp [dictSet, hp, List.lookup, ih]

/-! ## Claims -/

/-- Claim C2 counterexample: with a persisted-but-unparseable configuration
file, the `json.load` error propagates out of `load_config` and out of the
`WorkflowLauncher` constructor, so application startup crashes instead of
reporting the error and surviving. -/
theorem C2_counterexample :
    appInit FileState.corrupt = Except.error PyErr.jsonDecodeError := rfl

/-- Claim C2 (amended): `load_config` returns an empty registry when no
persisted state exists; when persisted state exists but cannot be parsed,
the parse error is raised and propagates uncaught through application
startup (the constructor), crashing the application rather than being
reported to the user and survived. -/
theorem C2_load_behavior :
    load_config FileState.absent = Except.ok [] ∧
    load_config FileState.corrupt = Except.error PyErr.jsonDecodeError ∧
    appInit FileState.corrupt = Except.error PyErr.jsonDecodeError :=
  ⟨rfl, rfl, rfl⟩

/-- Claim C4: loading after saving yields the registry back — the file
written by `save_config` loads to exactly the in-memory config, with each
entry keeping its `path`, `cli` (mode) and `file_input` (takesFileArgument)
fields — and with no pre-existing file, loading yields the empty registry.
(Byte-level JSON encoding is the external collaborator; the file is
modelled as holding the parsed document.) -/
theorem C4_save_load_roundtrip (st : AppState) :
    load_config ((save_config st).1.file) = Except.ok st.config ∧
    (∀ name, (((save_config st).1.config.lookup name).map
        (fun info => (info.lookup "path", info.lookup "cli", info.lookup "file_input")))
      = ((st.config.lookup name).map
        (fun info => (info.lookup "path", info.lookup "cli", info.lookup "file_input")))) ∧
    load_config FileState.absent = Except.ok [] :=
  ⟨rfl, fun _ => rfl, rfl⟩

/-- Claim C8: every standard-error chunk that `handle_stderr` displays is
appended with the distinguishing prefix in front of the raw chunk, whereas
`handle_stdout` appends the raw chunk — stderr stays a visually distinct
channel. -/
theorem C8_stderr_prefixed (st st2 : AppState) (d : String)
    (h : handle_stderr st d = Except.ok st2) :
    st2.outputLines = st.outputLines ++ ["[ERROR] " ++ d] := by
  unfold handle_stderr at h
  cases hp : st.process with
  | none => rw [hp] at h; cases h
  | some v => rw [hp] at h; cases h; rfl

theorem C8_stderr_prefixed_witness :
    (AppState.mk [] FileState.absent ["h"] (some ("/bin/x", []))).outputLines
        ++ ["[ERROR] " ++ "boom"] =
      (AppState.mk [] FileState.absent ["h", "[ERROR] boom"] (some ("/bin/x", []))).outputLines := by
  have := C8_stderr_prefixed
    (AppState.mk [] FileState.absent ["h"] (some ("/bin/x", [])))
    (AppState.mk [] FileState.absent ["h", "[ERROR] boom"] (some ("/bin/x", [])))
    "boom" (by rfl)
  exact this.symm

/-- Claim C10: removing a name that is not a key of the registry leaves the
in-memory config and the persisted file untouched — only the confirmation
question is shown, and no delete or save happens. -/
theorem C10_remove_absent_noop (env : Env) (st : AppState) (name : String)
    (h : st.config.lookup name = Option.none) :
    remove_app env st name =
      (st, [Effect.questionBox "Confirm Removal"
        ("Are you sure you want to remove " ++ name ++ " from the list?")]) := by
  unfold remove_app
  simp [h]

theorem C10_remove_absent_noop_witness :
    remove_app (Env.mk [] [] "" "" true)
        (AppState.mk [("a", [])] FileState.absent [] Option.none) "b" =
      (AppState.mk [("a", [])] FileState.absent [] Option.none,
       [Effect.questionBox "Confirm Removal"
         ("Are you sure you want to remove " ++ "b" ++ " from the list?")]) :=
  C10_remove_absent_noop (Env.mk [] [] "" "" true)
    (AppState.mk [("a", [])] FileState.absent [] Option.none) "b" (by decide)

/-- Claim C1 counterexample: a captured launch of a path that cannot be
started (here nothing is startable) signals no error whatsoever — `run_cli`
returns normally, raises nothing and shows no error box — contradicting
the claim that a `LaunchError` is signalled synchronously. -/
theorem C1_counterexample :
    signalsError (run_cli (Env.mk [] [] "" "" false)
      (AppState.mk [] FileState.absent [] Option.none)
      (PyVal.str "/missing/tool") []) = false := rfl

/-- Claim C1 (amended): for every captured launch where the executable
cannot be started, the launcher signals no error at all — `run_cli` returns
normally with no error dialog and no raised exception (the `QProcess`
failure signal is not connected to anything) — and no process-start effect
occurs, so (per the Qt contract modelled in `run_cli`) no
onOutput/onError/onExit events ever fire for that invocation: the
connected-slot trace delivered for a failed start is empty and leaves the
session state untouched. -/
theorem C1_silent_failure (env : Env) (st : AppState) (p : String)
    (args : List String) (h : p ∉ env.startable) :
    run_cli env st (PyVal.str p) args =
      Except.ok ({ st with
        outputLines := ["Running " ++ p ++ " " ++ String.intercalate " " args ++ "\n"],
        process := some (p, args) }, []) ∧
    signalsError (run_cli env st (PyVal.str p) args) = false ∧
    processTrace { st with
        outputLines := ["Running " ++ p ++ " " ++ String.intercalate " " args ++ "\n"],
        process := some (p, args) } [] =
      Except.ok { st with
        outputLines := ["Running " ++ p ++ " " ++ String.intercalate " " args ++ "\n"],
        process := some (p, args) } := by
  refine ⟨?_, ?_, rfl⟩
  · simp [run_cli, h]
  · simp [run_cli, signalsError, h]

theorem C1_silent_failure_witness :
    run_cli (Env.mk ["/bin/ok"] [] "" "" false)
        (AppState.mk [] FileState.absent [] Option.none) (PyVal.str "/gone") ["x"] =
      Except.ok ({ AppState.mk [] FileState.absent [] Option.none with
        outputLines := ["Running " ++ "/gone" ++ " " ++ String.intercalate " " ["x"] ++ "\n"],
        process := some ("/gone", ["x"]) }, []) ∧
    signalsError (run_cli (Env.mk ["/bin/ok"] [] "" "" false)
        (AppState.mk [] FileState.absent [] Option.none) (PyVal.str "/gone") ["x"]) = false ∧
    processTrace { AppState.mk [] FileState.absent [] Option.none with
        outputLines := ["Running " ++ "/gone" ++ " " ++ String.intercalate " " ["x"] ++ "\n"],
        process := some ("/gone", ["x"]) } [] =
      Except.ok { AppState.mk [] FileState.absent [] Option.none with
        outputLines := ["Running " ++ "/gone" ++ " " ++ String.intercalate " " ["x"] ++ "\n"],
        process := some ("/gone", ["x"]) } :=
  C1_silent_failure (Env.mk ["/bin/ok"] [] "" "" false)
    (AppState.mk [] FileState.absent [] Option.none) "/gone" ["x"] (by decide)

/-- Processing a trace of output/error deliveries only (no `finished`)
from a live session appends exactly the rendered chunks, in order, and
changes nothing else — in particular the process handle stays live. -/
theorem processTrace_no_finished (pre : List QtEvent) :
    ∀ st : AppState, st.process.isSome →
    (∀ e ∈ pre, isFinishedEvent e = false) →
    processTrace st pre =
      Except.ok { st with outputLines := st.outputLines ++ pre.flatMap renderEvent } := by
  induction pre with
  | nil => intro st _ _; simp [processTrace]
  | cons e rest ih =>
    intro st h hpre
    obtain ⟨v, hv⟩ := Option.isSome_iff_exists.mp h
    match e with
    | QtEvent.readyStdout d =>
      have step : processEvent st (QtEvent.readyStdout d) =
          Except.ok { st with outputLines := st.outputLines ++ [d] } := by
        simp [processEvent, handle_stdout, hv]
      have tail := ih { st with outputLines := st.outputLines ++ [d] }
        (by simp [hv]) (fun e2 he2 => hpre e2 (List.mem_cons_of_mem _ he2))
      simp [processTrace, step, tail, renderEvent, bindOk, List.append_assoc]
    | QtEvent.readyStderr d =>
      have step : processEvent st (QtEvent.readyStderr d) =
          Except.ok { st with outputLines := st.outputLines ++ ["[ERROR] " ++ d] } := by
        simp [processEvent, handle_stderr, hv]
      have tail := ih { st with outputLines := st.outputLines ++ ["[ERROR] " ++ d] }
        (by simp [hv]) (fun e2 he2 => hpre e2 (List.mem_cons_of_mem _ he2))
      simp [processTrace, step, tail, renderEvent, bindOk, List.append_assoc]
    | QtEvent.finished c =>
      exact absurd (hpre (QtEvent.finished c) (List.mem_cons_self _ _))
        (by simp [isFinishedEvent])

/-- Trace processing splits over concatenation of delivered traces. -/
theorem processTrace_append (xs ys : List QtEvent) :
    ∀ st : AppState, processTrace st (xs ++ ys) =
      (processTrace st xs).bind (fun st1 => processTrace st1 ys) := by
  induction xs with
  | nil => intro st; simp [processTrace, Except.bind]
  | cons e rest ih =>
    intro st
    simp only [List.cons_append, processTrace]
    cases hs : processEvent st e with
    | error err => simp [hs, Except.bind, bindError]
    | ok st1 => simp [hs, Except.bind, bindOk, ih]

/-- Claim C5: for a live session, processing the delivered trace — output
and error chunks followed by the one `finished` signal, the order Qt
guarantees — succeeds; the exit marker is appended exactly once, as the
very last line, after everything the two streams produced; the session
becomes terminal (the process handle is released); and in the terminal
state any further stdout/stderr delivery raises instead of appending, so
no onOutput/onError can follow onExit. -/
theorem C5_exit_terminal (st : AppState) (pre : List QtEvent) (code : Int)
    (hrun : st.process.isSome)
    (hpre : ∀ e ∈ pre, isFinishedEvent e = false) :
    ∃ st2, processTrace st (pre ++ [QtEvent.finished code]) = Except.ok st2 ∧
      st2.process = Option.none ∧
      st2.outputLines = st.outputLines ++ pre.flatMap renderEvent ++ [exitMarker] ∧
      (∀ d, handle_stdout st2 d = Except.error PyErr.attributeError) ∧
      (∀ d, handle_stderr st2 d = Except.error PyErr.attributeError) := by
  refine ⟨{ st with
      outputLines := st.outputLines ++ pre.flatMap renderEvent ++ [exitMarker],
      process := Option.none }, ?_, rfl, rfl, ?_, ?_⟩
  · rw [processTrace_append, processTrace_no_finished pre st hrun hpre]
    simp [processTrace, processEvent, handle_finished, Except.bind, bindOk, List.append_assoc]
  · intro d; simp [handle_stdout]
  · intro d; simp [handle_stderr]

theorem C5_exit_terminal_witness :
    ∃ st2, processTrace (AppState.mk [] FileState.absent ["head"] (some ("/bin/tool", [])))
        ([QtEvent.readyStdout "A", QtEvent.readyStderr "B"] ++ [QtEvent.finished 0]) =
        Except.ok st2 ∧
      st2.process = Option.none ∧
      st2.outputLines = (AppState.mk [] FileState.absent ["head"]
          (some ("/bin/tool", []))).outputLines
        ++ [QtEvent.readyStdout "A", QtEvent.readyStderr "B"].flatMap renderEvent
        ++ [exitMarker] ∧
      (∀ d, handle_stdout st2 d = Except.error PyErr.attributeError) ∧
      (∀ d, handle_stderr st2 d = Except.error PyErr.attributeError) :=
  C5_exit_terminal (AppState.mk [] FileState.absent ["head"] (some ("/bin/tool", [])))
    [QtEvent.readyStdout "A", QtEvent.readyStderr "B"] 0 (by decide) (by decide)

/-- `get_app_info` on an entry whose path is present and exists: no prompt,
no mutation, the entry is returned as is. -/
theorem get_app_info_valid (env : Env) (st : AppState) (key : String)
    (h : (pyTruthy ((entryOf st key).lookup "path") &&
          pathExistsVal env ((entryOf st key).lookup "path")) = true) :
    get_app_info env st key = (st, [], entryOf st key) := by
  simp only [get_app_info]
  simp [h]

/-- `get_app_info` on an entry whose path is missing or does not exist,
when the executable prompt is cancelled: prompts only, mutates nothing,
saves nothing, returns the entry as is. -/
theorem get_app_info_stale_cancel (env : Env) (st : AppState) (key : String)
    (hstale : (pyTruthy ((entryOf st key).lookup "path") &&
               pathExistsVal env ((entryOf st key).lookup "path")) = false)
    (hcancel : env.execPick = "") :
    get_app_info env st key =
      (st, [Effect.infoBox "Select Application" ("Select executable for " ++ key),
            Effect.openExecDialog ("Select " ++ key ++ " executable")],
       entryOf st key) := by
  simp only [get_app_info]
  simp [hstale, hcancel]

/-- `get_app_info` on an entry whose path is missing or does not exist,
when the executable prompt returns a path: the entry's path is overwritten
with the picked path, the config is saved to the file, and the updated
entry is returned. -/
theorem get_app_info_stale_pick (env : Env) (st : AppState) (key : String)
    (hstale : (pyTruthy ((entryOf st key).lookup "path") &&
               pathExistsVal env ((entryOf st key).lookup "path")) = false)
    (hpick : env.execPick ≠ "") :
    get_app_info env st key =
      ({ st with
          config := dictSet st.config key
            (dictSet (entryOf st key) "path" (PyVal.str env.execPick)),
          file := FileState.stored (dictSet st.config key
            (dictSet (entryOf st key) "path" (PyVal.str env.execPick))) },
       [Effect.infoBox "Select Application" ("Select executable for " ++ key),
        Effect.openExecDialog ("Select " ++ key ++ " executable"),
        Effect.fileWrite (dictSet st.config key
          (dictSet (entryOf st key) "path" (PyVal.str env.execPick)))],
       dictSet (entryOf st key) "path" (PyVal.str env.execPick)) := by
  have hb : (env.execPick != "") = true := bne_iff_ne.mpr hpick
  simp only [get_app_info, save_config]
  simp [hstale, hb]

/-- Whatever branch `get_app_info` takes, it never starts a process, never
shows an error box, never touches the process handle, and never changes
any entry field other than `path`. -/
theorem get_app_info_shape (env : Env) (st : AppState) (key : String) :
    ((get_app_info env st key).1.process = st.process) ∧
    ((get_app_info env st key).2.1.any isProcessStart = false) ∧
    ((get_app_info env st key).2.1.any isErrorEffect = false) ∧
    ((get_app_info env st key).2.2.lookup "file_input" =
      (entryOf st key).lookup "file_input") ∧
    ((get_app_info env st key).2.2.lookup "cli" = (entryOf st key).lookup "cli") := by
  by_cases h1 : (pyTruthy ((entryOf st key).lookup "path") &&
      pathExistsVal env ((entryOf st key).lookup "path")) = true
  · rw [get_app_info_valid env st key h1]
    simp
  · have h1f : (pyTruthy ((entryOf st key).lookup "path") &&
        pathExistsVal env ((entryOf st key).lookup "path")) = false :=
      Bool.eq_false_iff.mpr h1
    by_cases h2 : env.execPick = ""
    · rw [get_app_info_stale_cancel env st key h1f h2]
      simp [isProcessStart, isErrorEffect]
    · rw [get_app_info_stale_pick env st key h1f h2]
      refine ⟨rfl, by simp [isProcessStart], by simp [isErrorEffect], ?_, ?_⟩
      · exact dictSet_lookup_ne "path" "file_input" (PyVal.str env.execPick)
          (by decide) (entryOf st key)
      · exact dictSet_lookup_ne "path" "cli" (PyVal.str env.execPick)
          (by decide) (entryOf st key)

/-- Launching a string path that the OS cannot start never yields a
process-start effect and never writes the config file, whatever the
entry's mode; the config and the persisted file are untouched. -/
theorem doLaunch_not_startable (env : Env) (st : AppState) (effs : List Effect)
    (app_info : AppInfo) (s : String) (args : List String)
    (h : s ∉ env.startable) :
    ∃ st2 eff2, doLaunch env st effs app_info (PyVal.str s) args = Except.ok (st2, eff2) ∧
      st2.config = st.config ∧ st2.file = st.file ∧
      eff2.any isProcessStart = effs.any isProcessStart ∧
      eff2.any isFileWriteEff = effs.any isFileWriteEff := by
  by_cases hcli : pyTruthy (app_info.lookup "cli") = true
  · have heq : doLaunch env st effs app_info (PyVal.str s) args =
        Except.ok ({ st with
          outputLines := ["Running " ++ s ++ " " ++ String.intercalate " " args ++ "\n"],
          process := some (s, args) }, effs) := by
      simp [doLaunch, run_cli, hcli, h]
    exact ⟨_, effs, heq, rfl, rfl, rfl, rfl⟩
  · have hcli2 : pyTruthy (app_info.lookup "cli") = false := Bool.eq_false_iff.mpr hcli
    have heq : doLaunch env st effs app_info (PyVal.str s) args =
        Except.ok (st, effs ++ [Effect.criticalBox "Error" ("cannot start " ++ s)]) := by
      simp [doLaunch, hcli2, h]
    refine ⟨st, _, heq, rfl, rfl, ?_, ?_⟩
    · simp [List.any_append, isProcessStart]
    · simp [List.any_append, isFileWriteEff]

/-- Claim C3 counterexample: on a descriptor whose stored path no longer
exists, `get_app_info` is not a pure check — when the user picks a
replacement it mutates the registry entry, writes the config file, and
returns the entry with the new path (and it never signals any
MissingPathError-like failure). -/
theorem C3_counterexample :
    ((get_app_info (Env.mk [] [] "/new/tool" "" false)
        (AppState.mk [("myapp", [("path", PyVal.str "/gone")])]
          (FileState.stored [("myapp", [("path", PyVal.str "/gone")])]) [] Option.none)
        "myapp").1.config ≠
      [("myapp", [("path", PyVal.str "/gone")])]) ∧
    ((get_app_info (Env.mk [] [] "/new/tool" "" false)
        (AppState.mk [("myapp", [("path", PyVal.str "/gone")])]
          (FileState.stored [("myapp", [("path", PyVal.str "/gone")])]) [] Option.none)
        "myapp").2.2.lookup "path" = some (PyVal.str "/new/tool")) ∧
    ((get_app_info (Env.mk [] [] "/new/tool" "" false)
        (AppState.mk [("myapp", [("path", PyVal.str "/gone")])]
          (FileState.stored [("myapp", [("path", PyVal.str "/gone")])]) [] Option.none)
        "myapp").2.1.any isFileWriteEff = true) :=
  ⟨by decide, by decide, by decide⟩

/-- Claim C3 (amended): on a descriptor whose path is absent or no longer
exists, `get_app_info` prompts the user in place of signalling an error;
if the user cancels, it returns the unchanged entry with the registry and
file untouched, and if the user picks a path, it overwrites the entry's
path, saves the registry to the file, and returns the repaired entry —
it is not a pure check and can return a (new) path. -/
theorem C3_path_repair (env : Env) (st : AppState) (key : String)
    (hstale : (pyTruthy ((entryOf st key).lookup "path") &&
               pathExistsVal env ((entryOf st key).lookup "path")) = false) :
    (env.execPick = "" →
      get_app_info env st key =
        (st, [Effect.infoBox "Select Application" ("Select executable for " ++ key),
              Effect.openExecDialog ("Select " ++ key ++ " executable")],
         entryOf st key)) ∧
    (env.execPick ≠ "" →
      get_app_info env st key =
        ({ st with
            config := dictSet st.config key
              (dictSet (entryOf st key) "path" (PyVal.str env.execPick)),
            file := FileState.stored (dictSet st.config key
              (dictSet (entryOf st key) "path" (PyVal.str env.execPick))) },
         [Effect.infoBox "Select Application" ("Select executable for " ++ key),
          Effect.openExecDialog ("Select " ++ key ++ " executable"),
          Effect.fileWrite (dictSet st.config key
            (dictSet (entryOf st key) "path" (PyVal.str env.execPick)))],
         dictSet (entryOf st key) "path" (PyVal.str env.execPick))) :=
  ⟨fun h => get_app_info_stale_cancel env st key hstale h,
   fun h => get_app_info_stale_pick env st key hstale h⟩

theorem C3_path_repair_witness :
    ("" = "" →
      get_app_info (Env.mk [] [] "" "" false)
          (AppState.mk [("a", [("path", PyVal.str "/gone")])] FileState.absent [] Option.none) "a" =
        (AppState.mk [("a", [("path", PyVal.str "/gone")])] FileState.absent [] Option.none,
         [Effect.infoBox "Select Application" ("Select executable for " ++ "a"),
          Effect.openExecDialog ("Select " ++ "a" ++ " executable")],
         entryOf (AppState.mk [("a", [("path", PyVal.str "/gone")])]
           FileState.absent [] Option.none) "a")) ∧
    ("" ≠ "" →
      get_app_info (Env.mk [] [] "" "" false)
          (AppState.mk [("a", [("path", PyVal.str "/gone")])] FileState.absent [] Option.none) "a" =
        ({ AppState.mk [("a", [("path", PyVal.str "/gone")])] FileState.absent [] Option.none with
            config := dictSet [("a", [("path", PyVal.str "/gone")])] "a"
              (dictSet (entryOf (AppState.mk [("a", [("path", PyVal.str "/gone")])]
                FileState.absent [] Option.none) "a") "path" (PyVal.str "")),
            file := FileState.stored (dictSet [("a", [("path", PyVal.str "/gone")])] "a"
              (dictSet (entryOf (AppState.mk [("a", [("path", PyVal.str "/gone")])]
                FileState.absent [] Option.none) "a") "path" (PyVal.str ""))) },
         [Effect.infoBox "Select Application" ("Select executable for " ++ "a"),
          Effect.openExecDialog ("Select " ++ "a" ++ " executable"),
          Effect.fileWrite (dictSet [("a", [("path", PyVal.str "/gone")])] "a"
            (dictSet (entryOf (AppState.mk [("a", [("path", PyVal.str "/gone")])]
              FileState.absent [] Option.none) "a") "path" (PyVal.str "")))],
         dictSet (entryOf (AppState.mk [("a", [("path", PyVal.str "/gone")])]
           FileState.absent [] Option.none) "a") "path" (PyVal.str ""))) :=
  C3_path_repair (Env.mk [] [] "" "" false)
    (AppState.mk [("a", [("path", PyVal.str "/gone")])] FileState.absent [] Option.none)
    "a" (by decide)

/-- Claim C6: launching an entry whose `file_input` flag is set, when the
file prompt is cancelled, starts no process at all (neither a detached
`Popen` nor a captured `QProcess` session), raises no exception and shows
no error: `run_app` just returns. -/
theorem C6_cancelled_filepick_no_launch (env : Env) (st : AppState) (key : String)
    (hfi : pyTruthy ((entryOf st key).lookup "file_input") = true)
    (hcancel : env.filePick = "") :
    ∃ st2 effs, run_app env st key = Except.ok (st2, effs) ∧
      effs.any isProcessStart = false ∧
      effs.any isErrorEffect = false ∧
      st2.process = st.process := by
  obtain ⟨hproc, hstart, herr, hfieq, _⟩ := get_app_info_shape env st key
  have hfi2 : pyTruthy ((get_app_info env st key).2.2.lookup "file_input") = true := by
    rw [hfieq]; exact hfi
  cases hp : (get_app_info env st key).2.2.lookup "path" with
  | none =>
    have heq : run_app env st key =
        Except.ok ((get_app_info env st key).1, (get_app_info env st key).2.1) := by
      simp only [run_app, hp]
    exact ⟨_, _, heq, hstart, herr, hproc⟩
  | some pv =>
    by_cases ht : pyTruthy (some pv) = true
    · have heq : run_app env st key =
          Except.ok ((get_app_info env st key).1,
            (get_app_info env st key).2.1 ++
              [Effect.openFileArgDialog ("Select file for " ++ key)]) := by
        simp only [run_app, hp]
        simp [ht, hfi2, hcancel]
      refine ⟨_, _, heq, ?_, ?_, hproc⟩
      · simp [List.any_append, hstart, isProcessStart]
      · simp [List.any_append, herr, isErrorEffect]
    · have ht2 : pyTruthy (some pv) = false := Bool.eq_false_iff.mpr ht
      have heq : run_app env st key =
          Except.ok ((get_app_info env st key).1, (get_app_info env st key).2.1) := by
        simp only [run_app, hp]
        simp [ht2]
      exact ⟨_, _, heq, hstart, herr, hproc⟩

theorem C6_cancelled_filepick_no_launch_witness :
    ∃ st2 effs, run_app (Env.mk ["/bin/t"] ["/bin/t"] "" "" false)
        (AppState.mk [("t", [("path", PyVal.str "/bin/t"), ("file_input", PyVal.bool true)])]
          FileState.absent [] Option.none) "t" =
        Except.ok (st2, effs) ∧
      effs.any isProcessStart = false ∧
      effs.any isErrorEffect = false ∧
      st2.process = (AppState.mk [("t", [("path", PyVal.str "/bin/t"),
        ("file_input", PyVal.bool true)])] FileState.absent [] Option.none).process :=
  C6_cancelled_filepick_no_launch (Env.mk ["/bin/t"] ["/bin/t"] "" "" false)
    (AppState.mk [("t", [("path", PyVal.str "/bin/t"), ("file_input", PyVal.bool true)])]
      FileState.absent [] Option.none) "t" (by decide) (by decide)

/-- Claim C7: an entry read from the config whose `cli` (mode) and
`file_input` (takesFileArgument) keys are missing — or present only under
unrecognised key names, so that the exact-key lookups find nothing — is
launched detached via `Popen` with no output capture and no file prompt:
the falsy `dict.get` defaults mean mode=GUI and takesFileArgument=false. -/
theorem C7_missing_flags_default_gui (env : Env) (st : AppState) (key p : String)
    (hpath : (entryOf st key).lookup "path" = some (PyVal.str p))
    (hp : p ≠ "") (hex : p ∈ env.fsPaths) (hstart : p ∈ env.startable)
    (hcli : (entryOf st key).lookup "cli" = Option.none)
    (hfi : (entryOf st key).lookup "file_input" = Option.none) :
    run_app env st key = Except.ok (st, [Effect.processStarted p []]) := by
  have hvalid : (pyTruthy ((entryOf st key).lookup "path") &&
      pathExistsVal env ((entryOf st key).lookup "path")) = true := by
    rw [hpath]
    simp [pyTruthy, pathExistsVal, bne_iff_ne, hp, hex]
  have hga := get_app_info_valid env st key hvalid
  simp only [run_app, hga]
  simp [hpath, hfi, hcli, pyTruthy, bne_iff_ne, hp, doLaunch, hstart]

theorem C7_missing_flags_default_gui_witness :
    run_app (Env.mk ["/bin/t"] ["/bin/t"] "" "" false)
        (AppState.mk [("t", [("path", PyVal.str "/bin/t"), ("colour", PyVal.str "red")])]
          FileState.absent [] Option.none) "t" =
      Except.ok (AppState.mk [("t", [("path", PyVal.str "/bin/t"), ("colour", PyVal.str "red")])]
          FileState.absent [] Option.none,
        [Effect.processStarted "/bin/t" []]) :=
  C7_missing_flags_default_gui (Env.mk ["/bin/t"] ["/bin/t"] "" "" false)
    (AppState.mk [("t", [("path", PyVal.str "/bin/t"), ("colour", PyVal.str "red")])]
      FileState.absent [] Option.none) "t" "/bin/t"
    (by decide) (by decide) (by decide) (by decide) (by decide) (by decide)

/-- Claim C9: when path repair fires (the entry's path is absent or no
longer exists) and the user cancels the executable prompt, the in-memory
registry and the persisted file are unchanged, nothing is saved, and the
launch that follows starts no OS process (a nonexistent path cannot be
started, so the `Popen`/`QProcess` attempt yields no process). -/
theorem C9_cancelled_repair_no_mutation (env : Env) (st : AppState) (key : String)
    (hwf : ∀ q ∈ env.startable, q ∈ env.fsPaths)
    (hcancel : env.execPick = "")
    (hshape : (entryOf st key).lookup "path" = Option.none ∨
              ∃ s, (entryOf st key).lookup "path" = some (PyVal.str s))
    (hstale : (pyTruthy ((entryOf st key).lookup "path") &&
               pathExistsVal env ((entryOf st key).lookup "path")) = false) :
    ∃ st2 effs, run_app env st key = Except.ok (st2, effs) ∧
      st2.config = st.config ∧ st2.file = st.file ∧
      effs.any isProcessStart = false ∧
      effs.any isFileWriteEff = false := by
  have hga := get_app_info_stale_cancel env st key hstale hcancel
  rcases hshape with hnone | ⟨s, hs⟩
  · have heq : run_app env st key =
        Except.ok (st, [Effect.infoBox "Select Application" ("Select executable for " ++ key),
          Effect.openExecDialog ("Select " ++ key ++ " executable")]) := by
      simp only [run_app, hga, hnone]
    refine ⟨st, _, heq, rfl, rfl, ?_, ?_⟩
    · simp [isProcessStart]
    · simp [isFileWriteEff]
  · by_cases hse : s = ""
    · subst hse
      have heq : run_app env st key =
          Except.ok (st, [Effect.infoBox "Select Application" ("Select executable for " ++ key),
            Effect.openExecDialog ("Select " ++ key ++ " executable")]) := by
        simp only [run_app, hga, hs]
        simp [pyTruthy]
      refine ⟨st, _, heq, rfl, rfl, ?_, ?_⟩
      · simp [isProcessStart]
      · simp [isFileWriteEff]
    · have hst : pyTruthy (some (PyVal.str s)) = true := by
        simp [pyTruthy, bne_iff_ne, hse]
      have hnfs : s ∉ env.fsPaths := by
        intro hmem
        rw [hs] at hstale
        simp [pyTruthy, pathExistsVal, bne_iff_ne, hse, hmem] at hstale
      have hnst : s ∉ env.startable := fun hmem => hnfs (hwf s hmem)
      by_cases hfi : pyTruthy ((entryOf st key).lookup "file_input") = true
      · by_cases hfp : env.filePick = ""
        · have heq : run_app env st key =
              Except.ok (st, [Effect.infoBox "Select Application"
                  ("Select executable for " ++ key),
                Effect.openExecDialog ("Select " ++ key ++ " executable"),
                Effect.openFileArgDialog ("Select file for " ++ key)]) := by
            simp only [run_app, hga, hs]
            simp [hst, hfi, hfp]
          refine ⟨st, _, heq, rfl, rfl, ?_, ?_⟩
          · simp [isProcessStart]
          · simp [isFileWriteEff]
        · obtain ⟨st2, eff2, hdl, hc, hf, hps, hfw⟩ :=
            doLaunch_not_startable env st
              ([Effect.infoBox "Select Application" ("Select executable for " ++ key),
                Effect.openExecDialog ("Select " ++ key ++ " executable")] ++
               [Effect.openFileArgDialog ("Select file for " ++ key)])
              (entryOf st key) s [env.filePick] hnst
          have heq : run_app env st key = Except.ok (st2, eff2) := by
            simp only [run_app, hga, hs]
            simp [hst, hfi, hfp]
            exact hdl
          refine ⟨st2, eff2, heq, hc, hf, ?_, ?_⟩
          · rw [hps]; simp [isProcessStart]
          · rw [hfw]; simp [isFileWriteEff]
      · have hfi2 : pyTruthy ((entryOf st key).lookup "file_input") = false :=
          Bool.eq_false_iff.mpr hfi
        obtain ⟨st2, eff2, hdl, hc, hf, hps, hfw⟩ :=
          doLaunch_not_startable env st
            [Effect.infoBox "Select Application" ("Select executable for " ++ key),
             Effect.openExecDialog ("Select " ++ key ++ " executable")]
            (entryOf st key) s [] hnst
        have heq : run_app env st key = Except.ok (st2, eff2) := by
          simp only [run_app, hga, hs]
          simp [hst, hfi2]
          exact hdl
        refine ⟨st2, eff2, heq, hc, hf, ?_, ?_⟩
        · rw [hps]; simp [isProcessStart]
        · rw [hfw]; simp [isFileWriteEff]

theorem C9_cancelled_repair_no_mutation_witness :
    ∃ st2 effs, run_app (Env.mk [] [] "" "" false)
        (AppState.mk [("g", [("path", PyVal.str "/gone"), ("cli", PyVal.bool true)])]
          FileState.absent [] Option.none) "g" =
        Except.ok (st2, effs) ∧
      st2.config = (AppState.mk [("g", [("path", PyVal.str "/gone"),
        ("cli", PyVal.bool true)])] FileState.absent [] Option.none).config ∧
      st2.file = (AppState.mk [("g", [("path", PyVal.str "/gone"),
        ("cli", PyVal.bool true)])] FileState.absent [] Option.none).file ∧
      effs.any isProcessStart = false ∧
      effs.any isFileWriteEff = false :=
  C9_cancelled_repair_no_mutation (Env.mk [] [] "" "" false)
    (AppState.mk [("g", [("path", PyVal.str "/gone"), ("cli", PyVal.bool true)])]
      FileState.absent [] Option.none) "g"
    (by intro q hq; cases hq) (by decide)
    (Or.inr ⟨"/gone", by decide⟩) (by decide)

end GroupTool
